import Mathlib

/-!
Verification of the scene-graph / cubesphere core of the `grafvis` renderer.

The scene-graph data model, the transform-update traversal and the draw
traversal are shallowly embedded from `src/scene_graph.rs` and
`src/main.rs`.  `f32` arithmetic is modelled by exact rationals `ℚ`
(reals `ℝ` where square roots are required); the trigonometric functions
used by the rotation matrices are kept abstract as parameters `rc rs`
(cosine and sine), since no claim depends on trigonometric identities.
GPU calls are modelled as a trace of constructors.
-/

namespace GrafVis

/-- Three-component vector over `ℚ`, modelling `glm::Vec3` / `glm::TVec3<f32>`. -/
structure V3 where
  x : ℚ
  y : ℚ
  z : ℚ
deriving DecidableEq

/-- Componentwise negation, modelling `-v` on `glm::Vec3`. -/
def V3.neg (v : V3) : V3 := ⟨-v.x, -v.y, -v.z⟩

/-- Four-component vector over `ℚ`, modelling `glm::Vec4` / `glm::TVec4<f32>`. -/
structure V4 where
  x : ℚ
  y : ℚ
  z : ℚ
  w : ℚ
deriving DecidableEq

/-- Matrix of size 4×4 over `ℚ`, modelling `glm::Mat4`. -/
abbrev Mat4 := Matrix (Fin 4) (Fin 4) ℚ

namespace glm

/-- The 4×4 homogeneous translation matrix. -/
def translationMat (v : V3) : Mat4 :=
  !![1, 0, 0, v.x; 0, 1, 0, v.y; 0, 0, 1, v.z; 0, 0, 0, 1]

/-- The 4×4 homogeneous scale matrix. -/
def scaleMat (v : V3) : Mat4 :=
  !![v.x, 0, 0, 0; 0, v.y, 0, 0; 0, 0, v.z, 0; 0, 0, 0, 1]

/-- Rotation about the X axis, entries given by precomputed cosine `c` and sine `s`. -/
def rotXMat (c s : ℚ) : Mat4 :=
  !![1, 0, 0, 0; 0, c, -s, 0; 0, s, c, 0; 0, 0, 0, 1]

/-- Rotation about the Y axis, entries given by precomputed cosine `c` and sine `s`. -/
def rotYMat (c s : ℚ) : Mat4 :=
  !![c, 0, s, 0; 0, 1, 0, 0; -s, 0, c, 0; 0, 0, 0, 1]

/-- Rotation about the Z axis, entries given by precomputed cosine `c` and sine `s`. -/
def rotZMat (c s : ℚ) : Mat4 :=
  !![c, -s, 0, 0; s, c, 0, 0; 0, 0, 1, 0; 0, 0, 0, 1]

/-- The call `glm::translate(&m, &v)`: right-multiplies `m` by a translation matrix. -/
def translate (m : Mat4) (v : V3) : Mat4 := m * translationMat v

/-- The call `glm::scale(&m, &v)`: right-multiplies `m` by a scale matrix. -/
def scale (m : Mat4) (v : V3) : Mat4 := m * scaleMat v

/-- The call `glm::rotate_x(&m, angle)`: right-multiplies `m` by a rotation about X.
`rc`/`rs` are the (abstract) cosine and sine. -/
def rotate_x (rc rs : ℚ → ℚ) (m : Mat4) (angle : ℚ) : Mat4 :=
  m * rotXMat (rc angle) (rs angle)

/-- The call `glm::rotate_y(&m, angle)`: right-multiplies `m` by a rotation about Y. -/
def rotate_y (rc rs : ℚ → ℚ) (m : Mat4) (angle : ℚ) : Mat4 :=
  m * rotYMat (rc angle) (rs angle)

/-- The call `glm::rotate_z(&m, angle)`: right-multiplies `m` by a rotation about Z. -/
def rotate_z (rc rs : ℚ → ℚ) (m : Mat4) (angle : ℚ) : Mat4 :=
  m * rotZMat (rc angle) (rs angle)

end glm

/-- The enum `SceneNodeType` from `scene_graph.rs`, with the source's explicit
discriminants (`Geometry = 0`, …, `Ocean = 4`; `LightSource` and `Empty`
continue at 5 and 6 per Rust's discriminant assignment). -/
inductive SceneNodeType where
  | Geometry
  | Skybox
  | Geometry2d
  | Planet
  | Ocean
  | LightSource
  | Empty
deriving DecidableEq

/-- The `as u32` cast of a `SceneNodeType` value. -/
def SceneNodeType.toU32 : SceneNodeType → ℕ
  | .Geometry => 0
  | .Skybox => 1
  | .Geometry2d => 2
  | .Planet => 3
  | .Ocean => 4
  | .LightSource => 5
  | .Empty => 6

/-- Modelled from the spec and the uses in `scene_graph.rs`: `mesh::VAOobj`
(the file `mesh.rs` is not under `src/`).  It is the draw handle: GPU buffer
ids plus the stored index count `n`.  `scene_graph.rs` accesses the fields
`vao`, `vbo`, `ibo`, `nbo`, `texbo` and `n`. -/
structure VAOobj where
  vao : ℕ
  vbo : ℕ
  ibo : ℕ
  nbo : ℕ
  texbo : ℕ
  n : ℤ
deriving DecidableEq

/-- The `Default::default()` value for `VAOobj`: all ids and the count zero. -/
def VAOobj.default : VAOobj := ⟨0, 0, 0, 0, 0, 0⟩

/-- The per-node payload of `SceneNode` from `scene_graph.rs` (all fields
except the child list). -/
structure NodeData where
  position : V3
  rotation : V3
  scale : V3
  reference_point : V3
  node_type : SceneNodeType
  name : String
  current_transformation_matrix : Mat4
  vao : VAOobj
  index_count : ℤ
  texture_id : Option ℕ

/-- The struct `SceneNode` from `scene_graph.rs`: payload plus the ordered child list
(`children: Vec<*mut SceneNode>`, modelled by value as the tree it spans;
the spec requires the tree to be acyclic). -/
inductive SceneNode where
  | mk (data : NodeData) (children : List SceneNode)

/-- The payload of a node. -/
def SceneNode.data : SceneNode → NodeData
  | .mk d _ => d

/-- The child list of a node. -/
def SceneNode.children : SceneNode → List SceneNode
  | .mk _ c => c

/-- The stored world matrix of a node. -/
def SceneNode.ctm (n : SceneNode) : Mat4 :=
  n.data.current_transformation_matrix

/-- Constructor `SceneNode::new()`. -/
def SceneNode.new : SceneNode :=
  .mk
    { position := ⟨0, 0, 0⟩
      rotation := ⟨0, 0, 0⟩
      scale := ⟨1, 1, 1⟩
      reference_point := ⟨0, 0, 0⟩
      node_type := .Empty
      name := ""
      current_transformation_matrix := 1
      vao := VAOobj.default
      index_count := -1
      texture_id := none }
    []

/-- Constructor `SceneNode::with_type(node_type)`. -/
def SceneNode.with_type (node_type : SceneNodeType) : SceneNode :=
  .mk
    { position := ⟨0, 0, 0⟩
      rotation := ⟨0, 0, 0⟩
      scale := ⟨1, 1, 1⟩
      reference_point := ⟨0, 0, 0⟩
      node_type := node_type
      name := ""
      current_transformation_matrix := 1
      vao := VAOobj.default
      index_count := -1
      texture_id := none }
    []

/-- Constructor `SceneNode::from_vao(vao)`: a `Geometry` node drawing the given handle,
with `index_count = vao.n`. -/
def SceneNode.from_vao (vao : VAOobj) : SceneNode :=
  .mk
    { position := ⟨0, 0, 0⟩
      rotation := ⟨0, 0, 0⟩
      scale := ⟨1, 1, 1⟩
      reference_point := ⟨0, 0, 0⟩
      node_type := .Geometry
      name := ""
      current_transformation_matrix := 1
      vao := vao
      index_count := vao.n
      texture_id := none }
    []

/-- Method `SceneNode::update_node_transformations` from `scene_graph.rs`
(lines 175–200), transcribed statement by statement: build the local
transform by successive `glm` calls starting from the identity, store
`transformation_so_far * transform`, then recurse into the children with
the stored matrix. -/
def SceneNode.update_node_transformations (rc rs : ℚ → ℚ) :
    SceneNode → Mat4 → SceneNode
  | .mk d children, transformation_so_far =>
    let transform : Mat4 := 1
    let transform := glm.translate transform d.position
    let transform := glm.translate transform d.reference_point
    let transform := glm.rotate_y rc rs transform d.rotation.y
    let transform := glm.rotate_z rc rs transform d.rotation.z
    let transform := glm.rotate_x rc rs transform d.rotation.x
    let transform := glm.translate transform d.reference_point.neg
    let transform := glm.scale transform d.scale
    let ctm := transformation_so_far * transform
    .mk { d with current_transformation_matrix := ctm }
      (children.attach.map fun c =>
        SceneNode.update_node_transformations rc rs c.1 ctm)
termination_by n _ => sizeOf n
decreasing_by
  simp_wf
  have := List.sizeOf_lt_of_mem c.2
  omega

/-- The local transform of a node spelled as the explicit matrix product the
spec prescribes: translate by `position`, translate by `reference_point`,
rotate Y, rotate Z, rotate X, translate by `-reference_point`, scale. -/
def localTransform (rc rs : ℚ → ℚ) (d : NodeData) : Mat4 :=
  glm.translationMat d.position *
    (glm.translationMat d.reference_point *
      (glm.rotYMat (rc d.rotation.y) (rs d.rotation.y) *
        (glm.rotZMat (rc d.rotation.z) (rs d.rotation.z) *
          (glm.rotXMat (rc d.rotation.x) (rs d.rotation.x) *
            (glm.translationMat d.reference_point.neg *
              glm.scaleMat d.scale)))))

/-- C1: for every scene node and every parent world matrix,
`update_node_transformations` composes the node's local transform in exactly
the order: translate by `position`, translate by `reference_point`, rotate
about Y by `rotation.y`, rotate about Z by `rotation.z`, rotate about X by
`rotation.x`, translate by `-reference_point`, scale by `scale`; it stores
world transform = parent world matrix times this local transform; it updates
every child with the stored matrix as its parent matrix; and with the
identity matrix as the root's parent (as `main.rs` passes) the stored world
transform is the local transform itself. -/
theorem update_node_transformations_spec (rc rs : ℚ → ℚ) (n : SceneNode)
    (p : Mat4) :
    (n.update_node_transformations rc rs p).ctm = p * localTransform rc rs n.data ∧
    (n.update_node_transformations rc rs p).children =
      n.children.map (fun c =>
        c.update_node_transformations rc rs (p * localTransform rc rs n.data)) ∧
    (n.update_node_transformations rc rs (1 : Mat4)).ctm = localTransform rc rs n.data := by
  obtain ⟨d, children⟩ := n
  refine ⟨?_, ?_, ?_⟩ <;>
    simp [SceneNode.update_node_transformations, SceneNode.ctm, SceneNode.data,
      SceneNode.children, localTransform, glm.translate, glm.scale,
      glm.rotate_x, glm.rotate_y, glm.rotate_z, List.map_attach, mul_assoc]

namespace MainSrc

/-- The free function `update_node_transformations` from `main.rs`
(lines 174–200), transcribed independently of the method in
`scene_graph.rs` so the two can be compared. -/
def update_node_transformations (rc rs : ℚ → ℚ) :
    SceneNode → Mat4 → SceneNode
  | .mk d children, transformation_so_far =>
    let transform : Mat4 := 1
    let transform := glm.translate transform d.position
    let transform := glm.translate transform d.reference_point
    let transform := glm.rotate_y rc rs transform d.rotation.y
    let transform := glm.rotate_z rc rs transform d.rotation.z
    let transform := glm.rotate_x rc rs transform d.rotation.x
    let transform := glm.translate transform d.reference_point.neg
    let transform := glm.scale transform d.scale
    let ctm := transformation_so_far * transform
    .mk { d with current_transformation_matrix := ctm }
      (children.attach.map fun c =>
        update_node_transformations rc rs c.1 ctm)
termination_by n _ => sizeOf n
decreasing_by
  simp_wf
  have := List.sizeOf_lt_of_mem c.2
  omega

end MainSrc

/-- C10: the free function `update_node_transformations` in `main.rs` and
the method `SceneNode::update_node_transformations` in `scene_graph.rs`
agree on every tree and every accumulated parent matrix: they produce
identical updated subtrees, hence store identical world matrices in every
node of the subtree. -/
theorem update_node_transformations_equivalent (rc rs : ℚ → ℚ) :
    (n : SceneNode) → (p : Mat4) →
      MainSrc.update_node_transformations rc rs n p =
        n.update_node_transformations rc rs p
  | .mk d children, p => by
    rw [MainSrc.update_node_transformations, SceneNode.update_node_transformations]
    refine congrArg (SceneNode.mk _) ?_
    exact List.map_congr_left fun c _ =>
      update_node_transformations_equivalent rc rs c.1 _
termination_by n _ => sizeOf n
decreasing_by
  simp_wf
  have := List.sizeOf_lt_of_mem c.2
  omega

/-- One OpenGL call issued by the draw traversal, in the order the source
issues them.  `uniformMatrix4fv` carries the uploaded matrix,
`uniform1i`/`uniform1ui` the uploaded scalar, `drawElements` the index
count passed to `gl::DrawElements`. -/
inductive GLCall where
  | bindVertexArray (vao : ℕ)
  | uniform1ui (loc : ℤ) (v : ℕ)
  | uniformMatrix4fv (loc : ℤ) (m : Mat4)
  | uniform1i (loc : ℤ) (v : ℤ)
  | bindTextureUnit (unit : ℕ) (texture : ℕ)
  | drawElements (count : ℤ)

/-- A shader, reduced to what the traversal uses of it:
`get_uniform_location(name)` as a function from uniform names to locations. -/
def Shader : Type := String → ℤ

/-- The GL calls `SceneNode::draw_scene` (`scene_graph.rs` lines 206–245)
issues for the current node itself, before recursing: for the five
geometry-carrying node types it binds the vertex array, uploads the
node-type, mvp and model uniforms, binds the texture if one is present
(uploading `u_has_texture`), and issues the indexed draw; for every other
node type it issues nothing. -/
def drawCalls (d : NodeData) (view_projection_matrix : Mat4) (sh : Shader) :
    List GLCall :=
  match d.node_type with
  | .Geometry | .Geometry2d | .Planet | .Ocean | .Skybox =>
    let u_node_type := sh "u_node_type"
    let u_mvp := sh "u_mvp"
    let mvp := match d.node_type with
      | .Geometry2d => d.current_transformation_matrix
      | _ => view_projection_matrix * d.current_transformation_matrix
    let u_model := sh "u_model"
    let u_has_texture := sh "u_has_texture"
    [.bindVertexArray d.vao.vao,
     .uniform1ui u_node_type d.node_type.toU32,
     .uniformMatrix4fv u_mvp mvp,
     .uniformMatrix4fv u_model d.current_transformation_matrix] ++
    (match d.texture_id with
     | some texture_id => [.bindTextureUnit 0 texture_id, .uniform1i u_has_texture 1]
     | none => [.uniform1i u_has_texture 1]) ++
    [.drawElements d.index_count]
  | _ => []

/-- Method `SceneNode::draw_scene` from `scene_graph.rs`: issue the current node's
calls, then recurse into all children in order. -/
def SceneNode.draw_scene : SceneNode → Mat4 → Shader → List GLCall
  | .mk d children, view_projection_matrix, sh =>
    drawCalls d view_projection_matrix sh ++
      (children.attach.map fun c =>
        SceneNode.draw_scene c.1 view_projection_matrix sh).flatten
termination_by n _ _ => sizeOf n
decreasing_by
  simp_wf
  have := List.sizeOf_lt_of_mem c.2
  omega

/-- Returns `true` exactly for the five node types the draw match arm covers. -/
def SceneNodeType.isDrawnType : SceneNodeType → Bool
  | .Geometry | .Geometry2d | .Planet | .Ocean | .Skybox => true
  | .LightSource | .Empty => false

/-- Unfolding lemma for `draw_scene`: own calls, then the children's
traversals concatenated in order. -/
theorem draw_scene_unfold (n : SceneNode) (vp : Mat4) (sh : Shader) :
    n.draw_scene vp sh =
      drawCalls n.data vp sh ++
        (n.children.map fun c => c.draw_scene vp sh).flatten := by
  obtain ⟨d, children⟩ := n
  rw [SceneNode.draw_scene]
  simp [List.map_attach, SceneNode.data, SceneNode.children]

/-- C4: the draw traversal contributes the node's own calls followed by the
concatenated traversals of all its children — so it recurses into every
child of every node regardless of the node's type — and a node whose type
is `LightSource` or `Empty` contributes no calls of its own (in particular
no draw call), leaving only the children's traversals. -/
theorem draw_scene_traversal (n : SceneNode) (vp : Mat4) (sh : Shader) :
    n.draw_scene vp sh =
      drawCalls n.data vp sh ++
        (n.children.map fun c => c.draw_scene vp sh).flatten ∧
    ((n.data.node_type = .LightSource ∨ n.data.node_type = .Empty) →
      n.draw_scene vp sh = (n.children.map fun c => c.draw_scene vp sh).flatten) := by
  refine ⟨draw_scene_unfold n vp sh, fun h => ?_⟩
  have hempty : drawCalls n.data vp sh = [] := by
    rcases h with h | h <;> simp [drawCalls, h]
  rw [draw_scene_unfold n vp sh, hempty, List.nil_append]

/-- C4 witness: an `Empty` node with a single `Geometry` child issues
exactly the child's calls — the parent contributes nothing yet the child is
still visited. -/
theorem draw_scene_traversal_witness :
    ((SceneNode.new.data.node_type = SceneNodeType.LightSource ∨
        SceneNode.new.data.node_type = SceneNodeType.Empty) ∧
      SceneNode.new.draw_scene 1 (fun _ => 0) =
        (SceneNode.new.children.map fun c => c.draw_scene 1 (fun _ => 0)).flatten) :=
  ⟨Or.inr rfl, (draw_scene_traversal SceneNode.new 1 (fun _ => 0)).2 (Or.inr rfl)⟩

/-- C5: for every drawable node, the third GL call of its traversal uploads
the `u_mvp` uniform, and the uploaded matrix is the view-projection matrix
times the node's stored world transform — except for `Geometry2d` nodes,
whose `u_mvp` is the stored transformation matrix alone, bypassing the
camera. -/
theorem draw_scene_mvp_uniform (n : SceneNode) (vp : Mat4) (sh : Shader)
    (h : n.data.node_type.isDrawnType = true) :
    (n.draw_scene vp sh)[2]? =
      some (.uniformMatrix4fv (sh "u_mvp")
        (if n.data.node_type = .Geometry2d then n.ctm else vp * n.ctm)) := by
  obtain ⟨⟨pos, rot, sc, ref, nt, nm, ctm, vao, ic, tex⟩, children⟩ := n
  rw [SceneNode.draw_scene]
  cases nt <;>
    simp_all [drawCalls, SceneNode.data, SceneNode.ctm, SceneNodeType.isDrawnType]

/-- C5 witness: a `Geometry2d` node, evaluated at a concrete
view-projection matrix, uploads its own stored matrix as `u_mvp`. -/
theorem draw_scene_mvp_uniform_witness :
    (SceneNode.with_type .Geometry2d).data.node_type.isDrawnType = true ∧
      ((SceneNode.with_type .Geometry2d).draw_scene 1 (fun _ => 0))[2]? =
        some (.uniformMatrix4fv ((fun _ => (0 : ℤ)) "u_mvp")
          (if (SceneNode.with_type .Geometry2d).data.node_type = .Geometry2d then
            (SceneNode.with_type .Geometry2d).ctm
          else 1 * (SceneNode.with_type .Geometry2d).ctm)) :=
  ⟨rfl, draw_scene_mvp_uniform (SceneNode.with_type .Geometry2d) 1 (fun _ => 0) rfl⟩

/-- Extracts the value of a `uniform1i` upload; in the traversal the only
`uniform1i` upload is the `u_has_texture` flag. -/
def texFlagValue : GLCall → Option ℤ
  | .uniform1i _ v => some v
  | _ => none

/-- C6: in the calls a drawable node issues for itself, exactly one
`uniform1i` upload occurs — the `u_has_texture` flag — and its value is `1`
whether `texture_id` is `Some` or `None`: both branches of the
texture-presence check upload the same flag value. -/
theorem has_texture_uniform (d : NodeData) (vp : Mat4) (sh : Shader)
    (h : d.node_type.isDrawnType = true) :
    (drawCalls d vp sh).filterMap texFlagValue = [1] := by
  obtain ⟨pos, rot, sc, ref, nt, nm, ctm, vao, ic, tex⟩ := d
  cases nt <;> cases tex <;>
    simp_all [drawCalls, texFlagValue, SceneNodeType.isDrawnType]

/-- C6 witness: a texture-less `Geometry` node still uploads
`u_has_texture = 1`. -/
theorem has_texture_uniform_witness :
    (SceneNode.from_vao VAOobj.default).data.node_type.isDrawnType = true ∧
      (drawCalls (SceneNode.from_vao VAOobj.default).data 1 (fun _ => 0)).filterMap
          texFlagValue = [1] :=
  ⟨rfl, has_texture_uniform (SceneNode.from_vao VAOobj.default).data 1 (fun _ => 0) rfl⟩

/-- Extracts the index count of a `drawElements` call. -/
def drawElementsCount : GLCall → Option ℤ
  | .drawElements count => some count
  | _ => none

/-- C3 counterexample: a `Geometry` node that lacks a draw handle —
`SceneNode::with_type(Geometry)` leaves the default (zero) handle and
`index_count = -1` — does not fail fast: the draw traversal silently issues
exactly one draw call for it, `gl::DrawElements` with the stored count
`-1`. -/
theorem missing_handle_draws_counterexample :
    ((SceneNode.with_type .Geometry).draw_scene 1 (fun _ => 0)).filterMap
        drawElementsCount = [-1] := by
  rw [SceneNode.with_type, SceneNode.draw_scene]
  simp [drawCalls, drawElementsCount]

/-- C3 amended: for every node of a geometry-carrying type, whether or not
a draw handle was ever uploaded, the traversal's own calls end in exactly
one `gl::DrawElements` with the node's stored `index_count` — a missing
handle (default handle, `index_count = -1`) is neither detected nor
propagated; the draw call is issued silently. -/
theorem drawable_draws_unconditionally (d : NodeData) (vp : Mat4) (sh : Shader)
    (h : d.node_type.isDrawnType = true) :
    (drawCalls d vp sh).filterMap drawElementsCount = [d.index_count] := by
  obtain ⟨pos, rot, sc, ref, nt, nm, ctm, vao, ic, tex⟩ := d
  cases nt <;> cases tex <;>
    simp_all [drawCalls, drawElementsCount, SceneNodeType.isDrawnType]

/-- C3 amended witness: instantiated at the handle-less `Geometry` node. -/
theorem drawable_draws_unconditionally_witness :
    (SceneNode.with_type .Geometry).data.node_type.isDrawnType = true ∧
      (drawCalls (SceneNode.with_type .Geometry).data 1 (fun _ => 0)).filterMap
          drawElementsCount = [(SceneNode.with_type .Geometry).data.index_count] :=
  ⟨rfl, drawable_draws_unconditionally (SceneNode.with_type .Geometry).data 1
    (fun _ => 0) rfl⟩

/-- The enum `glutin::event::ElementState`, as matched by the event-loop keyboard
handler. -/
inductive ElementState where
  | Pressed
  | Released
deriving DecidableEq

/-- The keyboard branch of the event loop in `main.rs` (lines 506–519):
`Released` removes the keycode at its first position if the list contains
it; `Pressed` appends the keycode only if the list does not contain it.
Keycodes are an arbitrary type `K` with decidable equality (the source's
`VirtualKeyCode`). -/
def handle_keyboard_input {K : Type} [DecidableEq K] (keys : List K)
    (key_state : ElementState) (keycode : K) : List K :=
  match key_state with
  | .Released =>
    if keycode ∈ keys then keys.eraseIdx (keys.indexOf keycode) else keys
  | .Pressed =>
    if keycode ∈ keys then keys else keys ++ [keycode]

/-- The pressed-keys list after a whole sequence of keyboard events,
starting from the initially empty shared vector. -/
def processKeyEvents {K : Type} [DecidableEq K]
    (events : List (ElementState × K)) : List K :=
  events.foldl (fun keys e => handle_keyboard_input keys e.1 e.2) []

/-- The set of keys pressed and not yet released after a sequence of
events: a `Pressed` event inserts the key, a `Released` event removes it. -/
def heldKeys {K : Type} [DecidableEq K]
    (events : List (ElementState × K)) : Finset K :=
  events.foldl
    (fun s e => match e.1 with
      | .Pressed => insert e.2 s
      | .Released => s.erase e.2) ∅

/-- One keyboard event preserves the no-duplicates invariant and tracks the
insert/erase action on the underlying set. -/
theorem handle_keyboard_input_step {K : Type} [DecidableEq K]
    (keys : List K) (hnd : keys.Nodup) (st : ElementState) (k : K) :
    (handle_keyboard_input keys st k).Nodup ∧
      (handle_keyboard_input keys st k).toFinset =
        (match st with
          | .Pressed => insert k keys.toFinset
          | .Released => keys.toFinset.erase k) := by
  cases st
  · by_cases hk : k ∈ keys
    · refine ⟨by simpa [handle_keyboard_input, hk] using hnd, ?_⟩
      simp only [handle_keyboard_input, if_pos hk]
      exact (Finset.insert_eq_self.2 (List.mem_toFinset.2 hk)).symm
    · constructor
      · simp [handle_keyboard_input, hk, List.nodup_append, hnd]
      · simp only [handle_keyboard_input, if_neg hk]
        ext x
        simp [or_comm]
  · by_cases hk : k ∈ keys
    · simp only [handle_keyboard_input, if_pos hk,
        List.eraseIdx_indexOf_eq_erase]
      refine ⟨hnd.erase k, ?_⟩
      ext x
      simp [hnd.mem_erase_iff, and_comm]
    · simp only [handle_keyboard_input, if_neg hk]
      refine ⟨hnd, ?_⟩
      rw [Finset.erase_eq_of_not_mem (fun hx => hk (List.mem_toFinset.1 hx))]

/-- Auxiliary induction for C7, with the accumulator generalized. -/
theorem processKeyEvents_invariant {K : Type} [DecidableEq K]
    (events : List (ElementState × K)) (keys : List K) (hnd : keys.Nodup) :
    (events.foldl (fun ks e => handle_keyboard_input ks e.1 e.2) keys).Nodup ∧
      (events.foldl (fun ks e => handle_keyboard_input ks e.1 e.2) keys).toFinset =
        events.foldl
          (fun s e => match e.1 with
            | .Pressed => insert e.2 s
            | .Released => s.erase e.2) keys.toFinset := by
  induction events generalizing keys with
  | nil => exact ⟨hnd, rfl⟩
  | cons e rest ih =>
    obtain ⟨hnd1, hset1⟩ := handle_keyboard_input_step keys hnd e.1 e.2
    obtain ⟨hnd2, hset2⟩ := ih (handle_keyboard_input keys e.1 e.2) hnd1
    refine ⟨hnd2, ?_⟩
    rw [List.foldl_cons, List.foldl_cons, hset2, hset1]

/-- C7: after any sequence of keyboard events, the shared pressed-keys
vector contains no duplicate entries, and its members are exactly the
distinct keys pressed and not yet released (a `Pressed` inserts only if
absent, a `Released` removes only if present). -/
theorem pressed_keys_nodup {K : Type} [DecidableEq K]
    (events : List (ElementState × K)) :
    (processKeyEvents events).Nodup ∧
      (processKeyEvents events).toFinset = heldKeys events := by
  have h := processKeyEvents_invariant events [] List.nodup_nil
  simpa [processKeyEvents, heldKeys] using h

/-- The cross product `glm::cross` on 3-vectors. -/
def cross (a b : V3) : V3 :=
  ⟨a.y * b.z - a.z * b.y, a.z * b.x - a.x * b.z, a.x * b.y - a.y * b.x⟩

/-- The camera-related state of the render loop in `main.rs`, together with
the shared mouse-delta accumulator the mouse-handling step reads and
resets. -/
structure CameraState where
  position : V3
  h_angle : ℚ
  v_angle : ℚ
  direction : V3
  right : V3
  up : V3
  mouse_delta : ℚ × ℚ
deriving DecidableEq

/-- The mouse-handling step of the render loop (`main.rs` lines 437–448),
executed once per frame after the lock on the accumulator is acquired:
subtract `delta * delta_time * mouse_speed` from the two camera angles,
rederive `direction`, `right` and `up` from the new angles, and reset the
accumulator to `(0.0, 0.0)`.  The helpers `util::vec_direction` and
`util::vec_right` live in `util.rs`, which is not under `src/`; they are
kept abstract as parameters, exactly as the step calls them. -/
def handle_mouse_movement (vec_direction : ℚ → ℚ → V3) (vec_right : ℚ → V3)
    (delta_time mouse_speed : ℚ) (c : CameraState) : CameraState :=
  let h_angle := c.h_angle - c.mouse_delta.1 * delta_time * mouse_speed
  let v_angle := c.v_angle - c.mouse_delta.2 * delta_time * mouse_speed
  let direction := vec_direction h_angle v_angle
  let right := vec_right h_angle
  let up := cross right direction
  { c with
      h_angle := h_angle
      v_angle := v_angle
      direction := direction
      right := right
      up := up
      mouse_delta := (0, 0) }

/-- C8: when the mouse-handling step completes, the shared accumulator is
exactly `(0, 0)`; the camera position is untouched; and the drained value
influences the step's outcome only through the resulting camera angles —
two accumulator values yielding the same updated angles yield identical
resulting states. -/
theorem mouse_drain_spec (vec_direction : ℚ → ℚ → V3) (vec_right : ℚ → V3)
    (delta_time mouse_speed : ℚ) (c : CameraState) (d₁ d₂ : ℚ × ℚ)
    (hh : c.h_angle - d₁.1 * delta_time * mouse_speed =
      c.h_angle - d₂.1 * delta_time * mouse_speed)
    (hv : c.v_angle - d₁.2 * delta_time * mouse_speed =
      c.v_angle - d₂.2 * delta_time * mouse_speed) :
    (handle_mouse_movement vec_direction vec_right delta_time mouse_speed c).mouse_delta
        = (0, 0) ∧
      (handle_mouse_movement vec_direction vec_right delta_time mouse_speed c).position
        = c.position ∧
      handle_mouse_movement vec_direction vec_right delta_time mouse_speed
          { c with mouse_delta := d₁ } =
        handle_mouse_movement vec_direction vec_right delta_time mouse_speed
          { c with mouse_delta := d₂ } := by
  refine ⟨rfl, rfl, ?_⟩
  simp only [handle_mouse_movement, hh, hv]

/-- A concrete camera state used to instantiate C8. -/
def testCamera : CameraState :=
  { position := ⟨1, 2, 3⟩
    h_angle := 0
    v_angle := 0
    direction := ⟨0, 0, 1⟩
    right := ⟨1, 0, 0⟩
    up := ⟨0, 1, 0⟩
    mouse_delta := (5, 7) }

/-- C8 witness: with `delta_time = 0` the two distinct accumulator values
`(1, 2)` and `(3, 4)` give the same angles, and the step resets the
accumulator, keeps the position and coincides on both. -/
theorem mouse_drain_spec_witness :
    (testCamera.h_angle - (1 : ℚ) * 0 * 1 = testCamera.h_angle - 3 * 0 * 1) ∧
      (testCamera.v_angle - (2 : ℚ) * 0 * 1 = testCamera.v_angle - 4 * 0 * 1) ∧
      ((handle_mouse_movement (fun _ _ => ⟨0, 0, 0⟩) (fun _ => ⟨0, 0, 0⟩) 0 1
            testCamera).mouse_delta = (0, 0) ∧
        (handle_mouse_movement (fun _ _ => ⟨0, 0, 0⟩) (fun _ => ⟨0, 0, 0⟩) 0 1
            testCamera).position = testCamera.position ∧
        handle_mouse_movement (fun _ _ => ⟨0, 0, 0⟩) (fun _ => ⟨0, 0, 0⟩) 0 1
            { testCamera with mouse_delta := (1, 2) } =
          handle_mouse_movement (fun _ _ => ⟨0, 0, 0⟩) (fun _ => ⟨0, 0, 0⟩) 0 1
            { testCamera with mouse_delta := (3, 4) }) :=
  ⟨by simp, by simp,
    mouse_drain_spec (fun _ _ => ⟨0, 0, 0⟩) (fun _ => ⟨0, 0, 0⟩) 0 1
      testCamera (1, 2) (3, 4) (by simp) (by simp)⟩

noncomputable section

/-- Three-component vector over `ℝ`, used for the mesh geometry (where square
roots are unavoidable). -/
structure V3R where
  x : ℝ
  y : ℝ
  z : ℝ

/-- Four-component color vector over `ℝ`. -/
structure V4R where
  x : ℝ
  y : ℝ
  z : ℝ
  w : ℝ

/-- Squared Euclidean norm. -/
def V3R.sq (v : V3R) : ℝ := v.x ^ 2 + v.y ^ 2 + v.z ^ 2

/-- Radial normalization onto the unit sphere: `v / |v|`. -/
def V3R.normalize (v : V3R) : V3R :=
  ⟨v.x / Real.sqrt v.sq, v.y / Real.sqrt v.sq, v.z / Real.sqrt v.sq⟩

/-- Normalizing a nonzero vector lands on the unit sphere. -/
theorem V3R.sq_normalize (v : V3R) (h : 0 < v.sq) : v.normalize.sq = 1 := by
  unfold V3R.normalize V3R.sq at *
  rw [div_pow, div_pow, div_pow, Real.sq_sqrt h.le, div_add_div_same,
    div_add_div_same, div_self h.ne']

/-- The six cube-face orientations of the cubesphere. -/
inductive FaceOrientation where
  | top
  | bottom
  | front
  | back
  | left
  | right

/-- Modelled from the spec (the generator lives in `mesh.rs`, which is not
under `src/`): each of the six fixed face transforms is a rotation by a
multiple of π/2 plus a translation of magnitude 1 along the face normal,
applied to a point `(a, 0, b)` of the face's local plane; the rotations
are exact, so the images are written out with exact entries. -/
def faceTransform : FaceOrientation → ℝ → ℝ → V3R
  | .top, a, b => ⟨a, 1, b⟩
  | .bottom, a, b => ⟨a, -1, -b⟩
  | .front, a, b => ⟨a, -b, 1⟩
  | .back, a, b => ⟨a, b, -1⟩
  | .left, a, b => ⟨1, -a, b⟩
  | .right, a, b => ⟨-1, a, b⟩

/-- The squared norm of a point placed on the cube surface is one plus the
two in-plane coordinates squared — in particular at least 1. -/
theorem sq_faceTransform (o : FaceOrientation) (a b : ℝ) :
    (faceTransform o a b).sq = a ^ 2 + b ^ 2 + 1 := by
  cases o <;> simp [faceTransform, V3R.sq] <;> ring

/-- Grid coordinate `i` of `N` mapped onto `[-1, 1]`. -/
def gridCoord (N i : ℕ) : ℝ := 2 * (i : ℝ) / (N : ℝ) - 1

/-- Modelled from the spec: the `Mesh` value type of `mesh.rs` (not under
`src/`) — positions, normals, UVs, colors, triangle indices and the
derived index count. -/
structure Mesh where
  vertices : List V3R
  normals : List V3R
  uvs : List (ℝ × ℝ)
  colors : List V4R
  indices : List ℕ
  index_count : ℕ

/-- Triangle count of a mesh: three indices per triangle. -/
def Mesh.numTriangles (m : Mesh) : ℕ := m.indices.length / 3

/-- Modelled from the spec: `generate_face` (`Mesh::cs_plane` in the
missing `mesh.rs`): lay out an `(N+1) × (N+1)` grid on the cube face,
place each grid point on the cube surface with the face's rotation and
offset, normalize it onto the unit sphere; the normal is the normalized
direction itself, the UV is the grid's `[0,1]²` position, and each 2×2
block of grid points becomes two triangles. -/
def generate_face (o : FaceOrientation) (N : ℕ) (color : V4R) : Mesh :=
  let placed := (List.range (N + 1)).flatMap fun i =>
    (List.range (N + 1)).map fun j =>
      faceTransform o (gridCoord N i) (gridCoord N j)
  { vertices := placed.map V3R.normalize
    normals := placed.map V3R.normalize
    uvs := (List.range (N + 1)).flatMap fun i =>
      (List.range (N + 1)).map fun j => ((i : ℝ) / N, (j : ℝ) / N)
    colors := List.replicate ((N + 1) * (N + 1)) color
    indices := (List.range N).flatMap fun i =>
      (List.range N).flatMap fun j =>
        [i * (N + 1) + j, (i + 1) * (N + 1) + j, i * (N + 1) + j + 1,
         (i + 1) * (N + 1) + j, (i + 1) * (N + 1) + j + 1, i * (N + 1) + j + 1]
    index_count := 6 * N * N }

/-- Length of a `flatMap` whose blocks all have length `k`. -/
theorem length_flatMap_const {α β : Type} (l : List α) (f : α → List β) (k : ℕ)
    (h : ∀ a ∈ l, (f a).length = k) : (l.flatMap f).length = l.length * k := by
  induction l with
  | nil => simp
  | cons a l ih =>
    rw [List.flatMap_cons, List.length_append, h a (List.mem_cons_self a l),
      ih (fun b hb => h b (List.mem_cons_of_mem a hb)), List.length_cons]
    ring

/-- C2: for every face orientation and every subdivision count `N ≥ 1`, the
generated face has exactly `(N+1)²` vertices and `2·N²` triangles, and
every vertex position lies exactly on the unit sphere (the model uses exact
real arithmetic, so the floating-point tolerance is 0). -/
theorem generate_face_spec (o : FaceOrientation) (N : ℕ) (color : V4R)
    (h : 1 ≤ N) :
    (generate_face o N color).vertices.length = (N + 1) ^ 2 ∧
      (generate_face o N color).numTriangles = 2 * N ^ 2 ∧
      ∀ v ∈ (generate_face o N color).vertices, v.sq = 1 := by
  refine ⟨?_, ?_, ?_⟩
  · rw [generate_face]
    simp only [List.length_map]
    rw [length_flatMap_const _ _ (N + 1) (fun a _ => by simp), List.length_range]
    ring
  · rw [generate_face, Mesh.numTriangles]
    simp only
    rw [length_flatMap_const _ _ (6 * N) (fun a _ => by
        rw [length_flatMap_const _ _ 6 (fun b _ => by simp), List.length_range]
        ring),
      List.length_range]
    have h63 : N * (6 * N) = 3 * (2 * N ^ 2) := by ring
    rw [h63, Nat.mul_div_cancel_left _ (by norm_num)]
  · intro v hv
    rw [generate_face] at hv
    simp only [List.mem_map, List.mem_flatMap, List.mem_range] at hv
    obtain ⟨w, ⟨i, _, j, _, rfl⟩, rfl⟩ := hv
    apply V3R.sq_normalize
    rw [sq_faceTransform]
    positivity

/-- C2 witness: the top face at the minimal subdivision count 1 has 4
vertices, exactly two triangles, and unit vertices. -/
theorem generate_face_spec_witness :
    1 ≤ 1 ∧
      ((generate_face .top 1 ⟨0.2, 0.8, 0.4, 1⟩).vertices.length = (1 + 1) ^ 2 ∧
        (generate_face .top 1 ⟨0.2, 0.8, 0.4, 1⟩).numTriangles = 2 * 1 ^ 2 ∧
        ∀ v ∈ (generate_face .top 1 ⟨0.2, 0.8, 0.4, 1⟩).vertices, v.sq = 1) ∧
      (generate_face .top 1 ⟨0.2, 0.8, 0.4, 1⟩).numTriangles = 2 :=
  ⟨Nat.le.refl, generate_face_spec .top 1 ⟨0.2, 0.8, 0.4, 1⟩ Nat.le.refl,
    by simpa using (generate_face_spec .top 1 ⟨0.2, 0.8, 0.4, 1⟩ Nat.le.refl).2.1⟩

/-- Models `self.node_type = t;` on a freshly created node. -/
def SceneNode.set_node_type (n : SceneNode) (t : SceneNodeType) : SceneNode :=
  .mk { n.data with node_type := t } n.children

/-- Models `self.scale = s;` on a freshly created node. -/
def SceneNode.set_scale (n : SceneNode) (s : V3) : SceneNode :=
  .mk { n.data with scale := s } n.children

/-- Models `SceneNode::add_child`: push the child at the end of the child
list. -/
def SceneNode.add_child (n : SceneNode) (child : SceneNode) : SceneNode :=
  .mk n.data (n.children ++ [child])

/-- Function `SceneNode::make_cubesphere` from `scene_graph.rs` (lines 307–394),
transcribed statement by statement.  `Mesh::cs_plane` and `Mesh::mkvao`
live in the missing `mesh.rs` and are taken as parameters `cs_plane` and
`mkvao` (upload is modelled as a function of the mesh, abstracting GPU id
allocation); `M` is the mesh type.  Note the source immediately shadows
`subdivisions` with `256` and `color` with `(0.2, 0.8, 0.4, 1.0)`, and
never reads `rotation` or `position`. -/
def make_cubesphere {M : Type}
    (cs_plane : V3R → V3R → V3R → ℕ → Bool → Option V4R → M)
    (mkvao : M → VAOobj) (scale : V3) (rotation : V3) (position : V3)
    (subdivisions : ℕ) (color : Option V4R) : SceneNode :=
  let cubesphere := (SceneNode.with_type .Empty).set_scale scale
  let subdivisions := 256
  let color : V4R := ⟨0.2, 0.8, 0.4, 1.0⟩
  let plane0_mesh := cs_plane ⟨1, 1, 1⟩ ⟨0, 0, 0⟩ ⟨0, 1, 0⟩
    subdivisions true (some color)
  let plane0_node := (SceneNode.from_vao (mkvao plane0_mesh)).set_node_type .Planet
  let plane1_mesh := cs_plane ⟨1, 1, 1⟩ ⟨Real.pi, 0, 0⟩ ⟨0, -1, 0⟩
    subdivisions true (some color)
  let plane1_node := (SceneNode.from_vao (mkvao plane1_mesh)).set_node_type .Planet
  let plane2_mesh := cs_plane ⟨1, 1, 1⟩ ⟨Real.pi / 2, 0, 0⟩ ⟨0, 0, 1⟩
    subdivisions true (some color)
  let plane2_node := (SceneNode.from_vao (mkvao plane2_mesh)).set_node_type .Planet
  let plane3_mesh := cs_plane ⟨1, 1, 1⟩ ⟨-(Real.pi / 2), 0, 0⟩ ⟨0, 0, -1⟩
    subdivisions true (some color)
  let plane3_node := (SceneNode.from_vao (mkvao plane3_mesh)).set_node_type .Planet
  let plane4_mesh := cs_plane ⟨1, 1, 1⟩ ⟨0, 0, -(Real.pi / 2)⟩ ⟨1, 0, 0⟩
    subdivisions true (some color)
  let plane4_node := (SceneNode.from_vao (mkvao plane4_mesh)).set_node_type .Planet
  let plane5_mesh := cs_plane ⟨1, 1, 1⟩ ⟨0, 0, Real.pi / 2⟩ ⟨-1, 0, 0⟩
    subdivisions true (some color)
  let plane5_node := (SceneNode.from_vao (mkvao plane5_mesh)).set_node_type .Planet
  (((((cubesphere.add_child plane0_node).add_child plane1_node).add_child
    plane2_node).add_child plane3_node).add_child plane4_node).add_child
    plane5_node

/-- C9: two invocations of `make_cubesphere` that agree on `scale` produce
identical subtrees no matter how their `rotation`, `position`,
`subdivisions` and `color` arguments differ: the body shadows
`subdivisions` with `256` and `color` with `(0.2, 0.8, 0.4, 1.0)` and
never uses `rotation` or `position`, so the output depends only on
`scale`. -/
theorem make_cubesphere_depends_only_on_scale {M : Type}
    (cs_plane : V3R → V3R → V3R → ℕ → Bool → Option V4R → M)
    (mkvao : M → VAOobj) (scale : V3)
    (rotation₁ position₁ : V3) (subdivisions₁ : ℕ) (color₁ : Option V4R)
    (rotation₂ position₂ : V3) (subdivisions₂ : ℕ) (color₂ : Option V4R) :
    make_cubesphere cs_plane mkvao scale rotation₁ position₁ subdivisions₁
        color₁ =
      make_cubesphere cs_plane mkvao scale rotation₂ position₂ subdivisions₂
        color₂ := rfl

end

end GrafVis
